import Mathlib

/-!
Shallow embedding of pylarexx src/datalogger/DataListener.py.

The file models the two stateful listeners of the repository:

* RecentValuesListener — an in-memory cache of the latest reading per sensor
  id, served over TCP by ThreadedTCPRequestHandler.setup, with a lazily
  retried listening-port bind;
* MQTTListener — the MQTT publisher with its two payload conventions,
  sendHomeAssistantMessage and sendHomieMessages, and its once-only broker
  connect.

Python dicts are modelled as insertion-ordered association lists (CPython
semantics: assignment to an existing key overwrites in place, a new key is
appended).  Engineering values (sensor.rawToCooked results, Python floats)
are modelled as rationals; printf-style fixed-point formatting is modelled
by decimal rounding of the rational.  Network effects are modelled by
returning the list of messages handed to the transport; publish failures
and bind/connect failures are modelled by explicit oracles.
-/

/-- A reading dict as delivered to listeners.  Modelled from the spec:
the producer of the reading dict (the acquisition layer) is not under
src/; per the spec's data model (§3) and every access in
DataListener.py, a reading has exactly the keys rawvalue, timestamp and
signal (signal optional).  In particular it has no sensor key, which
matters for sendHomieMessages. -/
structure Reading where
  rawvalue : Int
  timestamp : Int
  signal : Option Int
deriving DecidableEq

/-- A sensor object as used by DataListener.py: internal id, human-facing
displayid, name, type, unit, manufacturerType and the calibration
function rawToCooked. -/
structure Sensor where
  id : Int
  displayid : Int
  name : String
  type : String
  unit : String
  manufacturerType : String
  rawToCooked : Int → Rat

/-- Insertion-ordered association list modelling a CPython dict with
integer keys. -/
abbrev PyDict (α : Type) : Type := List (Int × α)

/-- Dict lookup, d[k] as an Option. -/
def pyGet? {α : Type} (m : PyDict α) (k : Int) : Option α :=
  match m with
  | [] => none
  | (k2, v) :: rest => if k2 = k then some v else pyGet? rest k

/-- Dict membership test, k in d. -/
def pyContains {α : Type} (m : PyDict α) (k : Int) : Bool :=
  (pyGet? m k).isSome

/-- Dict assignment d[k] = v: overwrite in place when the key exists,
append otherwise (CPython insertion-order semantics). -/
def pyStore {α : Type} (m : PyDict α) (k : Int) (v : α) : PyDict α :=
  match m with
  | [] => [(k, v)]
  | (k2, w) :: rest =>
    if k2 = k then (k2, v) :: rest else (k2, w) :: pyStore rest k v

/-- Dict key list in insertion order, d.keys(). -/
def pyKeys {α : Type} (m : PyDict α) : List Int :=
  m.map (fun p => p.1)

/-- Python str.lower for the ASCII strings used by the program. -/
def pyLower (s : String) : String :=
  String.mk (s.data.map Char.toLower)

/-- The signal column: the literal "-" when data["signal"] is None, the
decimal value otherwise (str(data["signal"])). -/
def signalText (data : Reading) : String :=
  match data.signal with
  | none => "-"
  | some s => toString s

/-- Fixed-point decimal rendering of a rational, modelling Python's
"%f" / "%.2f" formatting of the (nonnegative, decimally exact)
engineering values the program prints: the value is rounded to prec
decimal digits and printed with exactly prec digits after the point. -/
def formatFixed (prec : Nat) (q : Rat) : String :=
  let scaled : Int := Int.fdiv (q.num * (10 : Int) ^ prec * 2 + (q.den : Int)) (2 * (q.den : Int))
  let base : Int := (10 : Int) ^ prec
  let ip := Int.fdiv scaled base
  let fp := Int.fmod scaled base
  let fps := toString fp
  toString ip ++ "." ++ String.mk (List.replicate (prec - fps.length) '0') ++ fps

/-! ## RecentValuesListener -/

/-- State of RecentValuesListener: the values and sensors dicts and the
ready flag of the TCP listening port. -/
structure RecentValuesState where
  values : PyDict Reading
  sensors : PyDict Sensor
  ready : Bool

/-- RecentValuesListener.__init__: empty dicts, then openListeningPort is
attempted once; bindOk says whether that first bind succeeded. -/
def RecentValuesState.init (bindOk : Bool) : RecentValuesState :=
  { values := [], sensors := [], ready := bindOk }

/-- One response line of ThreadedTCPRequestHandler.setup:
"%d,%f %s,%d,%s,%s,%s,%s\n" % (displayid, rawToCooked(rawvalue), unit,
timestamp, signaltext, type, name, id). -/
def renderLine (sensor : Sensor) (data : Reading) : String :=
  toString sensor.displayid ++ "," ++ formatFixed 6 (sensor.rawToCooked data.rawvalue)
    ++ " " ++ sensor.unit ++ "," ++ toString data.timestamp ++ "," ++ signalText data
    ++ "," ++ sensor.type ++ "," ++ sensor.name ++ "," ++ toString sensor.id ++ "\n"

/-- The full response of ThreadedTCPRequestHandler.setup: one line per
entry of the values dict, in iteration (insertion) order, looking each
sensor up in the sensors dict.  The lookup sensors[sid] raises KeyError
in Python when the key is missing; this is modelled by returning none. -/
def renderSnapshot (values : PyDict Reading) (sensors : PyDict Sensor) : Option String :=
  (values.mapM (fun p => (pyGet? sensors p.1).map (fun sen => renderLine sen p.2))).map
    String.join

/-- RecentValuesListener.onNewData: always store the reading and the
sensor under sensor.id, then, if the listening port is not ready,
re-attempt openListeningPort (bindOk is the outcome of that attempt).
The returned Bool records whether a bind attempt was made. -/
def RecentValuesState.onNewData (st : RecentValuesState) (data : Reading) (sensor : Sensor)
    (bindOk : Bool) : RecentValuesState × Bool :=
  let st1 : RecentValuesState :=
    { st with
      values := pyStore st.values sensor.id data
      sensors := pyStore st.sensors sensor.id sensor }
  if st1.ready then (st1, false) else ({ st1 with ready := bindOk }, true)

/-- Repeated delivery to RecentValuesListener: each list element carries
the reading, the sensor and the outcome of a bind attempt, should one be
made during that delivery. -/
def runRecentValues (st : RecentValuesState) : List (Reading × Sensor × Bool) → RecentValuesState
  | [] => st
  | (d, s, b) :: rest => runRecentValues (RecentValuesState.onNewData st d s b).1 rest

/-- The reading a last-write-wins store should hold for key i after the
given delivery sequence: the latest delivery whose sensor has id i. -/
def lastWrite (seq : List (Reading × Sensor × Bool)) (i : Int) : Option Reading :=
  match seq with
  | [] => none
  | (d, s, _) :: rest =>
    match lastWrite rest i with
    | some r => some r
    | none => if s.id = i then some d else none

/-- Every key of the values dict is present in the sensors dict, so the
renderer's sensors[sid] lookups cannot raise. -/
def coverageOK (values : PyDict Reading) (sensors : PyDict Sensor) : Bool :=
  (pyKeys values).all (fun k => pyContains sensors k)

/-! ## MQTTListener -/

/-- The configuration keys MQTTListener reads via self.params.get; a none
field means the key is absent and the get default applies. -/
structure MQTTParams where
  payload_format : Option String
  mqtt_base_topic : Option String
  mqtt_device : Option String
  mqtt_device_name : Option String
  homie_convention_version : Option String

/-- One message handed to mqttClient.publish: topic, payload, qos,
retain. -/
structure Msg where
  topic : String
  payload : String
  qos : Nat
  retain : Bool
deriving DecidableEq

/-- State of MQTTListener: params, the values dict used for first-seen
detection (keyed by sensor.displayid), and the ready flag set by
connect. -/
structure MQTTState where
  params : MQTTParams
  values : PyDict Reading
  ready : Bool

/-- MQTTListener.__init__: empty values dict, then connect() is attempted
exactly once; connectOk says whether mqttClient.connect succeeded.
onNewData never calls connect again. -/
def MQTTState.init (params : MQTTParams) (connectOk : Bool) : MQTTState :=
  { params := params, values := [], ready := connectOk }

/-- Models an exception thrown by the n-th (0-based) publish call of a
delivery: the earlier calls were already handed to the transport, the
failing call and everything after it are lost, and the exception is
caught by the enclosing except block. -/
def truncateAt (failAt : Option Nat) (msgs : List Msg) : List Msg :=
  match failAt with
  | none => msgs
  | some n => msgs.take n

/-- json.dumps of a string-valued dict given as an insertion-ordered pair
list (default separators; the strings emitted by this program need no
escaping). -/
def jsonObj (pairs : List (String × String)) : String :=
  "\x7b" ++ String.intercalate (", ") (pairs.map (fun p => "\"" ++ p.1 ++ "\": \"" ++ p.2 ++ "\"")) ++ "\x7d"

/-- The device_class token of sendHomeAssistantMessage: lower-cased type,
with "relative humidity" aliased to "humidity". -/
def haDeviceClass (t : String) : String :=
  let stype := pyLower t
  if stype = "relative humidity" then "humidity" else stype

/-- The unit_of_measurement of sendHomeAssistantMessage: the sensor unit,
with "%RH" aliased to "%". -/
def haUnit (u : String) : String :=
  if u = "%RH" then "%" else u

/-- topicroot of sendHomeAssistantMessage. -/
def haTopicRoot (p : MQTTParams) : String :=
  p.mqtt_base_topic.getD ("homeassistant") ++ "/sensor"

/-- topicconfig of sendHomeAssistantMessage. -/
def haTopicConfig (p : MQTTParams) (sensor : Sensor) : String :=
  haTopicRoot p ++ "/" ++ p.mqtt_device.getD ("pylarexx") ++ "_" ++ toString sensor.displayid
    ++ "/config"

/-- topicstate of sendHomeAssistantMessage. -/
def haTopicState (p : MQTTParams) (sensor : Sensor) : String :=
  haTopicRoot p ++ "/" ++ p.mqtt_device.getD ("pylarexx") ++ "_" ++ toString sensor.displayid
    ++ "/state"

/-- The discovery/config payload dict of sendHomeAssistantMessage, in
insertion order. -/
def haConfigPayload (p : MQTTParams) (sensor : Sensor) : List (String × String) :=
  [("name", sensor.name ++ " " ++ sensor.type),
   ("device_class", haDeviceClass sensor.type),
   ("state_topic", haTopicState p sensor),
   ("unit_of_measurement", haUnit sensor.unit),
   ("value_template", "\x7b\x7bvalue_json." ++ haDeviceClass sensor.type ++ "\x7d\x7d")]

/-- The state payload dict of sendHomeAssistantMessage: the single key is
sensor.type.lower() — no alias is applied here. -/
def haStatePayload (data : Reading) (sensor : Sensor) : List (String × String) :=
  [(pyLower sensor.type, formatFixed 2 (sensor.rawToCooked data.rawvalue))]

/-- MQTTListener.sendHomeAssistantMessage.  newSensor is detected by
indexing self.values[sensor.displayid] under try/except, but this path
never assigns to self.values, so the dict stays as it was.  When ready,
the config message is published whenever newSensor holds, then the state
message. -/
def sendHomeAssistantMessage (st : MQTTState) (data : Reading) (sensor : Sensor)
    (failAt : Option Nat) : MQTTState × List Msg :=
  let newSensor := !(pyContains st.values sensor.displayid)
  if st.ready then
    let configMsgs : List Msg :=
      if newSensor then
        [⟨haTopicConfig st.params sensor, jsonObj (haConfigPayload st.params sensor), 0, true⟩]
      else []
    let msgs := configMsgs ++ [⟨haTopicState st.params sensor, jsonObj (haStatePayload data sensor), 0, false⟩]
    (st, truncateAt failAt msgs)
  else (st, [])

/-- topicroot of sendHomieMessages. -/
def homieTopicRoot (p : MQTTParams) : String :=
  p.mqtt_base_topic.getD ("homie") ++ "/" ++ p.mqtt_device.getD ("pylarexx")

/-- The device-level metadata messages of sendHomieMessages' newSensor
branch: $homie, $name, $nodes (comma-joined sensor_{sid} over the given
key list, the iteration order of self.values at that instant) and
$state. -/
def homieDeviceMsgs (p : MQTTParams) (keyList : List Int) : List Msg :=
  let root := homieTopicRoot p
  [⟨root ++ "/$homie", p.homie_convention_version.getD ("3.0"), 0, true⟩,
   ⟨root ++ "/$name", p.mqtt_device_name.getD ("Python MQTT Adapter for Arexx Multilogger"), 0, true⟩,
   ⟨root ++ "/$nodes", String.intercalate (",") (keyList.map (fun sid => "sensor_" ++ toString sid)), 0, true⟩,
   ⟨root ++ "/$state", "ready", 0, true⟩]

/-- The per-sensor messages of sendHomieMessages' else branch (sensor
already known): $type, $name, $properties, property $name, $datatype,
$unit and the formatted value. -/
def homieSensorMsgs (p : MQTTParams) (data : Reading) (sensor : Sensor) : List Msg :=
  let root := homieTopicRoot p
  let sid := toString sensor.displayid
  let prop := pyLower sensor.type
  [⟨root ++ "/sensor_" ++ sid ++ "/$type", sensor.manufacturerType, 0, false⟩,
   ⟨root ++ "/sensor_" ++ sid ++ "/$name", sensor.name, 0, false⟩,
   ⟨root ++ "/sensor_" ++ sid ++ "/$properties", prop, 0, false⟩,
   ⟨root ++ "/sensor_" ++ sid ++ "/" ++ prop ++ "/$name", sensor.name ++ " " ++ sensor.type, 0, false⟩,
   ⟨root ++ "/sensor_" ++ sid ++ "/" ++ prop ++ "/$datatype", "float", 0, false⟩,
   ⟨root ++ "/sensor_" ++ sid ++ "/" ++ prop ++ "/$unit", sensor.unit, 0, false⟩,
   ⟨root ++ "/sensor_" ++ sid ++ "/" ++ prop, formatFixed 2 (sensor.rawToCooked data.rawvalue), 0, false⟩]

/-- MQTTListener.sendHomieMessages.  newSensor is detected by indexing
self.values[sensor.displayid] under try/except; the announced flag is
then set unconditionally (self.values[sensor.displayid] = data) before
the ready check and the try block.  In the newSensor branch the source
publishes the four device-metadata messages and then iterates
self.values reading value["sensor"], a key the reading dict does not
have, so a KeyError aborts the per-sensor loop before its first publish
and is caught by the except block: only the four device messages are
emitted.  In the else branch the seven per-sensor messages are
emitted. -/
def sendHomieMessages (st : MQTTState) (data : Reading) (sensor : Sensor)
    (failAt : Option Nat) : MQTTState × List Msg :=
  let newSensor := !(pyContains st.values sensor.displayid)
  let st1 : MQTTState := { st with values := pyStore st.values sensor.displayid data }
  if st1.ready then
    let msgs :=
      if newSensor then homieDeviceMsgs st1.params (pyKeys st1.values)
      else homieSensorMsgs st1.params data sensor
    (st1, truncateAt failAt msgs)
  else (st1, [])

/-- MQTTListener.onNewData: dispatch on params.get("payload_format",
"home-assistant"). -/
def MQTTState.onNewData (st : MQTTState) (data : Reading) (sensor : Sensor)
    (failAt : Option Nat) : MQTTState × List Msg :=
  let fmt := st.params.payload_format.getD ("home-assistant")
  if fmt = "homie" then sendHomieMessages st data sensor failAt
  else if fmt = "home-assistant" then sendHomeAssistantMessage st data sensor failAt
  else (st, [])

/-- Repeated delivery to MQTTListener, concatenating every message handed
to the transport. -/
def runMQTT (st : MQTTState) : List (Reading × Sensor × Option Nat) → MQTTState × List Msg
  | [] => (st, [])
  | (d, s, f) :: rest =>
    ((runMQTT (MQTTState.onNewData st d s f).1 rest).1,
      (MQTTState.onNewData st d s f).2 ++ (runMQTT (MQTTState.onNewData st d s f).1 rest).2)

/-! ## Concrete inputs used by the claims -/

/-- The Garden sensor of the Convention A claims. -/
def gardenSensor : Sensor :=
  { id := 5, displayid := 3, name := "Garden", type := "Relative Humidity", unit := "%RH",
    manufacturerType := "TSN-TH70E", rawToCooked := fun r => mkRat r 10 }

/-- A reading used with the Garden sensor: rawToCooked gives 48.0. -/
def gardenReading : Reading :=
  { rawvalue := 480, timestamp := 1700000000, signal := none }

/-- Params selecting the home-assistant convention, all other keys
absent. -/
def haParams : MQTTParams :=
  { payload_format := some ("home-assistant"), mqtt_base_topic := none, mqtt_device := none,
    mqtt_device_name := none, homie_convention_version := none }

/-- Params selecting the homie convention, all other keys absent. -/
def homieParams : MQTTParams :=
  { payload_format := some ("homie"), mqtt_base_topic := none, mqtt_device := none,
    mqtt_device_name := none, homie_convention_version := none }

/-- First homie demo sensor. -/
def sensorA : Sensor :=
  { id := 11, displayid := 1, name := "Indoor", type := "Temperature", unit := "C",
    manufacturerType := "TL-3TSN", rawToCooked := fun r => mkRat r 10 }

/-- Second homie demo sensor, distinct displayid. -/
def sensorB : Sensor :=
  { id := 12, displayid := 2, name := "Outdoor", type := "Temperature", unit := "C",
    manufacturerType := "TL-3TSN", rawToCooked := fun r => mkRat r 10 }

/-- The Office sensor of the live-query claim: rawToCooked 230 = 23.0. -/
def officeSensor : Sensor :=
  { id := 2, displayid := 7, name := "Office", type := "Temperature", unit := "C",
    manufacturerType := "TL-3TSN", rawToCooked := fun r => mkRat r 10 }

/-- The Office reading of the live-query claim, signal absent. -/
def officeReading : Reading :=
  { rawvalue := 230, timestamp := 1700000000, signal := none }

/-- The Office reading with a present signal quality. -/
def officeReadingSig : Reading :=
  { rawvalue := 230, timestamp := 1700000000, signal := some 85 }

/-- Cache values dict of the live-query claim. -/
def officeValues : PyDict Reading := [(2, officeReading)]

/-- Cache sensors dict of the live-query claim. -/
def officeSensors : PyDict Sensor := [(2, officeSensor)]

/-! ## Dictionary lemmas -/

/-- Lookup after assignment: the stored key now maps to the stored value,
every other key is untouched. -/
theorem pyGet_pyStore {α : Type} (m : PyDict α) (k i : Int) (v : α) :
    pyGet? (pyStore m k v) i = if k = i then some v else pyGet? m i := by
  induction m with
  | nil => simp [pyStore, pyGet?]
  | cons p rest ih =>
    obtain ⟨k2, w⟩ := p
    by_cases h : k2 = k
    · subst h
      by_cases h2 : k2 = i <;> simp [pyStore, pyGet?, h2]
    · by_cases h2 : k2 = i
      · have hki : ¬ k = i := fun hh => h (h2.trans hh.symm)
        have hik : ¬ i = k := fun hh => hki hh.symm
        simp [pyStore, pyGet?, h, h2, hki, hik]
      · simp [pyStore, pyGet?, h, h2, ih]

/-- Membership after assignment. -/
theorem pyContains_pyStore {α : Type} (m : PyDict α) (k i : Int) (v : α) :
    pyContains (pyStore m k v) i = if k = i then true else pyContains m i := by
  by_cases h : k = i <;> simp [pyContains, pyGet_pyStore, h]

/-- Unfolding the key list over a cons cell. -/
theorem pyKeys_cons {α : Type} (p : Int × α) (m : PyDict α) :
    pyKeys (p :: m) = p.1 :: pyKeys m := rfl

/-- Membership is membership in the key list. -/
theorem pyContains_iff {α : Type} (m : PyDict α) (k : Int) :
    pyContains m k = true ↔ k ∈ pyKeys m := by
  induction m with
  | nil => simp [pyContains, pyGet?, pyKeys]
  | cons p rest ih =>
    obtain ⟨k2, w⟩ := p
    by_cases h : k2 = k
    · subst h
      simp [pyContains, pyGet?, pyKeys_cons]
    · have hk : ¬ k = k2 := fun hh => h hh.symm
      simp only [pyContains, pyGet?, if_neg h, pyKeys_cons, List.mem_cons]
      rw [show ((pyGet? rest k).isSome = true ↔ k ∈ pyKeys rest) from ih]
      simp [hk]

/-- Key list after assignment: unchanged when the key was present,
extended by the key at the end otherwise. -/
theorem pyKeys_pyStore {α : Type} (m : PyDict α) (k : Int) (v : α) :
    pyKeys (pyStore m k v) = if pyContains m k then pyKeys m else pyKeys m ++ [k] := by
  induction m with
  | nil => simp [pyStore, pyKeys, pyContains, pyGet?]
  | cons p rest ih =>
    obtain ⟨k2, w⟩ := p
    by_cases h : k2 = k
    · simp [pyStore, pyKeys, pyContains, pyGet?, h]
    · have hcons : pyContains ((k2, w) :: rest) k = pyContains rest k := by
        simp [pyContains, pyGet?, h]
      simp only [pyStore, if_neg h, pyKeys_cons, ih, hcons]
      split <;> simp

/-- Assignment keeps the key list duplicate-free. -/
theorem pyStore_nodup {α : Type} (m : PyDict α) (k : Int) (v : α)
    (h : (pyKeys m).Nodup) : (pyKeys (pyStore m k v)).Nodup := by
  rw [pyKeys_pyStore]
  split
  · exact h
  · next hc =>
    have hk : k ∉ pyKeys m := fun hm => hc ((pyContains_iff m k).mpr hm)
    simp [List.nodup_append, h, hk]

/-- Storing the same value twice is the same as storing it once. -/
theorem pyStore_idem {α : Type} (m : PyDict α) (k : Int) (v : α) :
    pyStore (pyStore m k v) k v = pyStore m k v := by
  induction m with
  | nil => simp [pyStore]
  | cons p rest ih =>
    obtain ⟨k2, w⟩ := p
    by_cases h : k2 = k <;> simp [pyStore, h, ih]

/-! ## RecentValuesListener lemmas -/

/-- onNewData always stores the reading, whatever the ready flag. -/
theorem onNewData_values (st : RecentValuesState) (d : Reading) (s : Sensor) (b : Bool) :
    (RecentValuesState.onNewData st d s b).1.values = pyStore st.values s.id d := by
  by_cases h : st.ready <;> simp [RecentValuesState.onNewData, h]

/-- onNewData always stores the sensor, whatever the ready flag. -/
theorem onNewData_sensors (st : RecentValuesState) (d : Reading) (s : Sensor) (b : Bool) :
    (RecentValuesState.onNewData st d s b).1.sensors = pyStore st.sensors s.id s := by
  by_cases h : st.ready <;> simp [RecentValuesState.onNewData, h]

/-- The lookup into the cache after a run is the last write of the
remaining sequence when there is one, the prior contents otherwise. -/
theorem runRecentValues_get (seq : List (Reading × Sensor × Bool)) (st : RecentValuesState)
    (i : Int) :
    pyGet? (runRecentValues st seq).values i =
      match lastWrite seq i with
      | some r => some r
      | none => pyGet? st.values i := by
  induction seq generalizing st with
  | nil => simp [runRecentValues, lastWrite]
  | cons x rest ih =>
    obtain ⟨d, s, b⟩ := x
    show pyGet? (runRecentValues (RecentValuesState.onNewData st d s b).1 rest).values i = _
    rw [ih]
    cases hlw : lastWrite rest i with
    | some r => simp [lastWrite, hlw]
    | none =>
      simp only [lastWrite, hlw, onNewData_values, pyGet_pyStore]
      by_cases h : s.id = i <;> simp [h]

/-- A run keeps the cache keys duplicate-free. -/
theorem runRecentValues_nodup (seq : List (Reading × Sensor × Bool)) (st : RecentValuesState)
    (h : (pyKeys st.values).Nodup) : (pyKeys (runRecentValues st seq).values).Nodup := by
  induction seq generalizing st with
  | nil => exact h
  | cons x rest ih =>
    obtain ⟨d, s, b⟩ := x
    show (pyKeys (runRecentValues (RecentValuesState.onNewData st d s b).1 rest).values).Nodup
    apply ih
    rw [onNewData_values]
    exact pyStore_nodup _ _ _ h

/-- Storing a reading and its sensor under the same key preserves values
to sensors key coverage. -/
theorem coverage_step (values : PyDict Reading) (sensors : PyDict Sensor) (i : Int)
    (d : Reading) (s : Sensor) (h : coverageOK values sensors = true) :
    coverageOK (pyStore values i d) (pyStore sensors i s) = true := by
  simp only [coverageOK, List.all_eq_true, decide_eq_true_eq] at h ⊢
  intro k hk
  rw [pyContains_pyStore]
  by_cases hki : i = k
  · simp [hki]
  · rw [if_neg hki]
    apply h
    rw [pyKeys_pyStore] at hk
    revert hk
    split
    · exact id
    · intro hk
      rcases List.mem_append.mp hk with hk | hk
      · exact hk
      · simp at hk
        exact absurd hk.symm hki

/-- A run preserves values to sensors key coverage. -/
theorem runRecentValues_coverage (seq : List (Reading × Sensor × Bool))
    (st : RecentValuesState) (h : coverageOK st.values st.sensors = true) :
    coverageOK (runRecentValues st seq).values (runRecentValues st seq).sensors = true := by
  induction seq generalizing st with
  | nil => exact h
  | cons x rest ih =>
    obtain ⟨d, s, b⟩ := x
    show coverageOK (runRecentValues (RecentValuesState.onNewData st d s b).1 rest).values _ = true
    apply ih
    rw [onNewData_values, onNewData_sensors]
    exact coverage_step _ _ _ _ _ h

/-- When every cached sensor id resolves in the sensors dict, the line
renderer of the snapshot succeeds with one rendered line per cache
entry. -/
theorem mapM_lines (values : PyDict Reading) (sensors : PyDict Sensor)
    (h : coverageOK values sensors = true) :
    ∃ L : List String,
      values.mapM (fun p => (pyGet? sensors p.1).map (fun sen => renderLine sen p.2)) = some L
      ∧ L.length = values.length := by
  induction values with
  | nil => exact ⟨[], rfl, rfl⟩
  | cons p rest ih =>
    obtain ⟨sid, d⟩ := p
    have hcov : pyContains sensors sid = true ∧ coverageOK rest sensors = true := by
      simp only [coverageOK, pyKeys_cons, List.all_cons, Bool.and_eq_true] at h
      exact h
    obtain ⟨sen, hsen⟩ : ∃ sen, pyGet? sensors sid = some sen := by
      have h1 := hcov.1
      cases hg : pyGet? sensors sid with
      | none => simp [pyContains, hg] at h1
      | some sen => exact ⟨sen, rfl⟩
    obtain ⟨L, hL, hlen⟩ := ih hcov.2
    refine ⟨renderLine sen d :: L, ?_, by simp [hlen]⟩
    rw [List.mapM_cons]
    have hL2 : List.mapM.loop
        (fun p => Option.map (fun sen => renderLine sen p.2) (pyGet? sensors p.1)) rest []
        = some L := hL
    simp [hsen, hL2]

/-- When every cached sensor id resolves in the sensors dict, the
snapshot succeeds with exactly one rendered line per cache entry. -/
theorem renderSnapshot_lines (values : PyDict Reading) (sensors : PyDict Sensor)
    (h : coverageOK values sensors = true) :
    ∃ L : List String,
      renderSnapshot values sensors = some (String.join L) ∧ L.length = values.length := by
  obtain ⟨L, hL, hlen⟩ := mapM_lines values sensors h
  exact ⟨L, by simp only [renderSnapshot, hL, Option.map_some'], hlen⟩

/-! ## MQTTListener lemmas -/

/-- sendHomieMessages records the sensor in the values dict before the
ready check and the try block, so it does so even when the broker is not
ready or every publish of the delivery fails. -/
theorem sendHomie_values (st : MQTTState) (d : Reading) (s : Sensor) (f : Option Nat) :
    (sendHomieMessages st d s f).1.values = pyStore st.values s.displayid d := by
  by_cases h : st.ready <;> simp [sendHomieMessages, h]

/-- sendHomieMessages never touches the ready flag or the params. -/
theorem sendHomie_ready_params (st : MQTTState) (d : Reading) (s : Sensor) (f : Option Nat) :
    (sendHomieMessages st d s f).1.ready = st.ready ∧
    (sendHomieMessages st d s f).1.params = st.params := by
  by_cases h : st.ready <;> simp [sendHomieMessages, h]

/-- sendHomeAssistantMessage never changes the state at all: in
particular it never records the sensor in the values dict. -/
theorem sendHA_state (st : MQTTState) (d : Reading) (s : Sensor) (f : Option Nat) :
    (sendHomeAssistantMessage st d s f).1 = st := by
  by_cases h : st.ready <;> simp [sendHomeAssistantMessage, h]

/-- Emission of sendHomieMessages for an already-recorded sensor: the
per-sensor message list, truncated at a publish failure, and nothing
when the broker is not ready. -/
theorem sendHomie_known (st : MQTTState) (d : Reading) (s : Sensor) (f : Option Nat)
    (h : pyContains st.values s.displayid = true) :
    (sendHomieMessages st d s f).2 =
      if st.ready then truncateAt f (homieSensorMsgs st.params d s) else [] := by
  by_cases hr : st.ready <;> simp [sendHomieMessages, h, hr]

/-- When the broker connect failed, one delivery emits nothing and leaves
the ready flag false under every payload format. -/
theorem mqtt_onNewData_not_ready (st : MQTTState) (d : Reading) (s : Sensor) (f : Option Nat)
    (h : st.ready = false) :
    (MQTTState.onNewData st d s f).2 = [] ∧ (MQTTState.onNewData st d s f).1.ready = false := by
  by_cases h1 : st.params.payload_format.getD ("home-assistant") = "homie"
  · simp [MQTTState.onNewData, h1, sendHomieMessages, h]
  · by_cases h2 : st.params.payload_format.getD ("home-assistant") = "home-assistant"
    · simp [MQTTState.onNewData, h1, h2, sendHomeAssistantMessage, h]
    · simp [MQTTState.onNewData, h1, h2, h]

/-! ## Claim theorems -/

/-- C1: the claim says the discovery/config payload is published at most
once per sensor per process lifetime under both conventions.  Under the
home-assistant convention the code never records the sensor in
self.values (sendHomeAssistantMessage detects newSensor by indexing the
dict but never assigns to it), so the retained config payload is handed
to the transport again on every reading: two deliveries of the same
sensor publish the config topic twice. -/
theorem ha_config_republished_every_reading :
    ((runMQTT (MQTTState.init haParams true)
        [(gardenReading, gardenSensor, none), (gardenReading, gardenSensor, none)]).2.filter
      (fun m => m.topic = "homeassistant/sensor/pylarexx_3/config")).length = 2 := by decide

/-- C2: for the Garden sensor the discovery payload's device_class is
"humidity" and its unit_of_measurement is "%" (aliases applied), and the
value_template references value_json.humidity — but the state payload's
key is sensor.type.lower() with no alias, i.e. "relative humidity", not
"humidity" as the claim states. -/
theorem ha_state_key_unaliased :
    (haConfigPayload haParams gardenSensor).lookup ("device_class") = some ("humidity") ∧
    (haConfigPayload haParams gardenSensor).lookup ("unit_of_measurement") = some ("%") ∧
    (haConfigPayload haParams gardenSensor).lookup ("value_template")
      = some ("\x7b\x7bvalue_json.humidity\x7d\x7d") ∧
    haStatePayload gardenReading gardenSensor = [("relative humidity", "48.00")] ∧
    (haStatePayload gardenReading gardenSensor).lookup ("humidity") = none := by decide

/-- C3 counterexample: the claim says the homie device-level metadata is
published only once, when the first sensor ever is announced, and that
later first-seen sensors do not appear in $nodes.  Delivering two
distinct new sensors publishes the $homie device metadata twice, and the
second $nodes payload lists both sensors. -/
theorem homie_device_metadata_republished :
    ((runMQTT (MQTTState.init homieParams true)
        [(gardenReading, sensorA, none), (gardenReading, sensorB, none)]).2.filter
      (fun m => m.topic = "homie/pylarexx/$homie")).length = 2 ∧
    ((runMQTT (MQTTState.init homieParams true)
        [(gardenReading, sensorA, none), (gardenReading, sensorB, none)]).2.filter
      (fun m => m.topic = "homie/pylarexx/$nodes")).map Msg.payload
      = ["sensor_1", "sensor_1,sensor_2"] := by decide

/-- C3 amended: under homie the device-level metadata ($homie, $name,
$nodes, $state) is published on every delivery whose sensor was not
previously seen, not only for the first sensor ever; each such
announcement's $nodes list contains exactly the sensors known to the
publisher at that instant, the newly seen sensor included.  (The
announcement is the whole emission of that delivery: the per-sensor loop
then dies on the reading dict's missing sensor key.) -/
theorem homie_device_metadata_each_new_sensor (st : MQTTState) (d : Reading) (s : Sensor)
    (hnew : pyContains st.values s.displayid = false) (hready : st.ready = true) :
    (sendHomieMessages st d s none).2 =
      homieDeviceMsgs st.params (pyKeys st.values ++ [s.displayid]) := by
  simp [sendHomieMessages, hready, hnew, truncateAt, pyKeys_pyStore]

/-- C3 amended, witness: first delivery of sensorA from the fresh homie
publisher emits exactly the device metadata with $nodes over the key
list [1]. -/
theorem homie_device_metadata_each_new_sensor_witness :
    (sendHomieMessages (MQTTState.init homieParams true) gardenReading sensorA none).2 =
      homieDeviceMsgs homieParams (pyKeys ([] : PyDict Reading) ++ [1]) :=
  homie_device_metadata_each_new_sensor (MQTTState.init homieParams true) gardenReading sensorA
    (by decide) (by decide)

/-- C4: the live-query response for the cache holding exactly the Office
sensor (displayId 7, type Temperature, name Office, unit C, internal id
2) with reading rawValue 230, timestamp 1700000000, absent signal is
exactly the claimed line; with a present signal quality the decimal
value replaces the dash; and in general the response is a concatenation
of one such line per cached sensor. -/
theorem live_query_response_format :
    renderSnapshot officeValues officeSensors
      = some ("7,23.000000 C,1700000000,-,Temperature,Office,2\n") ∧
    renderSnapshot [(2, officeReadingSig)] officeSensors
      = some ("7,23.000000 C,1700000000,85,Temperature,Office,2\n") ∧
    ∀ (values : PyDict Reading) (sensors : PyDict Sensor),
      coverageOK values sensors = true →
      ∃ L : List String,
        renderSnapshot values sensors = some (String.join L) ∧ L.length = values.length := by
  exact ⟨by decide, by decide, renderSnapshot_lines⟩

/-- C4 witness: the general clause applied to the concrete Office
cache. -/
theorem live_query_response_format_witness :
    ∃ L : List String,
      renderSnapshot officeValues officeSensors = some (String.join L)
      ∧ L.length = officeValues.length :=
  live_query_response_format.2.2 officeValues officeSensors (by decide)

/-- C5: after any delivery sequence from a fresh cache, the values dict
holds at most one entry per sensor id (keys duplicate-free), and the
entry under each id is exactly the most recently delivered reading for
that id (last-write-wins), whatever the bind outcomes were. -/
theorem liveQueryCache_last_write_wins (b0 : Bool) (seq : List (Reading × Sensor × Bool))
    (i : Int) :
    pyGet? (runRecentValues (RecentValuesState.init b0) seq).values i = lastWrite seq i ∧
    (pyKeys (runRecentValues (RecentValuesState.init b0) seq).values).Nodup := by
  constructor
  · rw [runRecentValues_get]
    cases lastWrite seq i <;> simp [RecentValuesState.init, pyGet?]
  · exact runRecentValues_nodup seq _ (by simp [RecentValuesState.init, pyKeys])

/-- C6: when the broker connection attempt at construction fails, the
ready flag stays false across any delivery sequence and no message is
ever handed to the transport, whatever the payload format; onNewData
contains no reconnect path. -/
theorem mqtt_connect_failure_noop (p : MQTTParams) (seq : List (Reading × Sensor × Option Nat)) :
    (runMQTT (MQTTState.init p false) seq).2 = [] ∧
    (runMQTT (MQTTState.init p false) seq).1.ready = false := by
  have main : ∀ (seq : List (Reading × Sensor × Option Nat)) (st : MQTTState),
      st.ready = false → (runMQTT st seq).2 = [] ∧ (runMQTT st seq).1.ready = false := by
    intro seq
    induction seq with
    | nil => intro st h; exact ⟨rfl, h⟩
    | cons x rest ih =>
      intro st h
      obtain ⟨d, s, f⟩ := x
      obtain ⟨h1, h2⟩ := mqtt_onNewData_not_ready st d s f h
      obtain ⟨ih1, ih2⟩ := ih (MQTTState.onNewData st d s f).1 h2
      exact ⟨by simp [runMQTT, h1, ih1], by simp [runMQTT, ih2]⟩
  exact main seq (MQTTState.init p false) rfl

/-- C7: under homie, a delivery whose publish calls fail (the failure
oracle f1 may cut the emission anywhere, even before the first message)
still leaves the sensor recorded in the values dict, so a later delivery
for the same sensor computes newSensor as false and emits only the
per-sensor message list — the discovery announcement is not
re-triggered. -/
theorem homie_publish_failure_keeps_announced (st : MQTTState) (d1 d2 : Reading) (s : Sensor)
    (f1 f2 : Option Nat) :
    pyContains (sendHomieMessages st d1 s f1).1.values s.displayid = true ∧
    (sendHomieMessages (sendHomieMessages st d1 s f1).1 d2 s f2).2 =
      (if st.ready then truncateAt f2 (homieSensorMsgs st.params d2 s) else []) := by
  have hc : pyContains (sendHomieMessages st d1 s f1).1.values s.displayid = true := by
    rw [sendHomie_values, pyContains_pyStore]
    simp
  refine ⟨hc, ?_⟩
  rw [sendHomie_known _ _ _ _ hc, (sendHomie_ready_params st d1 s f1).1,
    (sendHomie_ready_params st d1 s f1).2]

/-- C8: every update stores the reading and the sensor, even while the
listening port is not bound (write-only mode); a bind is attempted
exactly when the ready flag is false; and the ready flag afterwards is
the old flag or the attempt's outcome, so once a bind succeeds the flag
stays true and no further attempts happen. -/
theorem recentValues_bind_retry_semantics (st : RecentValuesState) (d : Reading) (s : Sensor)
    (bindOk : Bool) :
    pyGet? (RecentValuesState.onNewData st d s bindOk).1.values s.id = some d ∧
    pyGet? (RecentValuesState.onNewData st d s bindOk).1.sensors s.id = some s ∧
    (RecentValuesState.onNewData st d s bindOk).2 = !st.ready ∧
    (RecentValuesState.onNewData st d s bindOk).1.ready = (st.ready || bindOk) := by
  refine ⟨?_, ?_, ?_, ?_⟩
  · rw [onNewData_values, pyGet_pyStore]; simp
  · rw [onNewData_sensors, pyGet_pyStore]; simp
  · by_cases h : st.ready <;> simp [RecentValuesState.onNewData, h]
  · by_cases h : st.ready <;> simp [RecentValuesState.onNewData, h]

/-- C9: delivering the identical (reading, sensor) pair twice leaves the
cache dicts — and hence the rendered snapshot — exactly as after the
first delivery: no duplicate entry, no reordering. -/
theorem recentValues_update_idempotent (st : RecentValuesState) (d : Reading) (s : Sensor)
    (b1 b2 : Bool) :
    (RecentValuesState.onNewData (RecentValuesState.onNewData st d s b1).1 d s b2).1.values
      = (RecentValuesState.onNewData st d s b1).1.values ∧
    (RecentValuesState.onNewData (RecentValuesState.onNewData st d s b1).1 d s b2).1.sensors
      = (RecentValuesState.onNewData st d s b1).1.sensors ∧
    renderSnapshot
        (RecentValuesState.onNewData (RecentValuesState.onNewData st d s b1).1 d s b2).1.values
        (RecentValuesState.onNewData (RecentValuesState.onNewData st d s b1).1 d s b2).1.sensors
      = renderSnapshot (RecentValuesState.onNewData st d s b1).1.values
        (RecentValuesState.onNewData st d s b1).1.sensors := by
  refine ⟨?_, ?_, ?_⟩ <;>
    simp only [onNewData_values, onNewData_sensors, pyStore_idem]

/-- C10: after any delivery sequence from a fresh cache, every key of the
values dict is a key of the sensors dict, and therefore the snapshot
renderer's sensors[sid] lookups all succeed. -/
theorem snapshot_sensor_lookup_total (b0 : Bool) (seq : List (Reading × Sensor × Bool)) :
    coverageOK (runRecentValues (RecentValuesState.init b0) seq).values
      (runRecentValues (RecentValuesState.init b0) seq).sensors = true ∧
    (renderSnapshot (runRecentValues (RecentValuesState.init b0) seq).values
      (runRecentValues (RecentValuesState.init b0) seq).sensors).isSome = true := by
  have hcov := runRecentValues_coverage seq (RecentValuesState.init b0) (by rfl)
  refine ⟨hcov, ?_⟩
  obtain ⟨L, hL, _⟩ := renderSnapshot_lines _ _ hcov
  rw [hL]
  rfl
